import Mathlib

/-!
Shallow embedding of the `yellowdi` dependency-injection library
(`yellowdi/container.py`): the `Token` identity system, the `Container`
registration table, and the recursive `resolve` algorithm built on
`inspect.signature(...).bind_partial`.

Python object identity for tokens is made explicit: every token object is an
allocation identifier (`Nat`), and the process-wide interning registry
`Token._tokens` together with the attribute heap forms a `TokenState` that is
threaded through the constructors.  Python's recursion (which can overflow the
interpreter stack on cyclic dependency graphs) is made explicit with a fuel
parameter: one unit of fuel is one level of `Container.resolve` nesting.
Factory invocations are observable: the resolver threads a log, appending the
registration key each time a registered factory is called.
-/

namespace Yellowdi

/-- Association-list lookup, first match wins.  Models lookup in a Python
`dict` (keys are unique in every list we build, so first-match agrees with the
dict semantics). -/
def alistGet {α : Type} [DecidableEq α] {β : Type} : List (α × β) → α → Option β
  | [], _ => none
  | (k, v) :: rest, k' => if k = k' then some v else alistGet rest k'

/-- Remove the entry for a key from an association list (models `dict.pop`);
keys are unique so removing the first occurrence removes the only one. -/
def alistRemove {α : Type} [DecidableEq α] {β : Type} : List (α × β) → α → List (α × β)
  | [], _ => []
  | (k, v) :: rest, k' => if k = k' then rest else (k, v) :: alistRemove rest k'

/-- Overwrite-or-insert for an association list: models `d[k] = v` on a Python
`dict` (re-registering a key overwrites its factory). -/
def alistPut {α : Type} [DecidableEq α] {β : Type} : List (α × β) → α → β → List (α × β)
  | [], k, v => [(k, v)]
  | (k', v') :: rest, k, v =>
    if k' = k then (k, v) :: rest else (k', v') :: alistPut rest k v

/-! ## Token (`container.py` lines 25-40)

```python
@final
class Token:
    _tokens: dict[str, "Token"] = {}

    def __init__(self, name: str | None = None):
        self.name = name

    def __new__(cls, name: str | None = None) -> "Token":
        if name is None:
            return super().__new__(cls)
        if name not in cls._tokens:
            cls._tokens[name] = super().__new__(cls)
        return cls._tokens[name]

    def __class_getitem__(cls, item: str) -> "Token":
        return cls(item)
```
-/

/-- The process-wide token state: the interning registry `Token._tokens`
(name to object identity), the attribute heap (object identity to the value of
its `name` attribute), and the next fresh allocation identifier, making
`object.__new__`'s fresh-object guarantee explicit. -/
structure TokenState where
  interned : List (String × Nat)
  heap : List (Nat × Option String)
  nextId : Nat
deriving DecidableEq

/-- The empty token state: `Token._tokens = {}`, nothing allocated yet. -/
def TokenState.empty : TokenState := ⟨[], [], 0⟩

/-- Models `Token.__new__(cls, name)`: anonymous requests allocate a fresh
object; named requests return the interned object, interning a freshly
allocated one on first use of the name.  Does not touch the `name` attribute
(`__init__` does that). -/
def tokenDunderNew (name : Option String) (s : TokenState) : Nat × TokenState :=
  match name with
  | none => (s.nextId, { s with nextId := s.nextId + 1 })
  | some n =>
    match alistGet s.interned n with
    | some id => (id, s)
    | none =>
      (s.nextId,
       { s with interned := (n, s.nextId) :: s.interned, nextId := s.nextId + 1 })

/-- Models `Token.__init__(self, name)`: sets `self.name = name` on the heap. -/
def tokenInit (id : Nat) (name : Option String) (s : TokenState) : TokenState :=
  { s with heap := alistPut s.heap id name }

/-- Models the Python call `Token(name)` (respectively `Token()` when
`name = none`): `__new__` followed by `__init__` on the returned object. -/
def tokenNew (name : Option String) (s : TokenState) : Nat × TokenState :=
  let (id, s') := tokenDunderNew name s
  (id, tokenInit id name s')

/-- Models the indexer syntax `Token[item]`, i.e. `Token.__class_getitem__`,
whose body is `return cls(item)`. -/
def tokenClassGetitem (item : String) (s : TokenState) : Nat × TokenState :=
  tokenNew (some item) s

/-- Models Python's default `__eq__` for `Token` (the class defines none):
reference identity.  Two token objects are equal exactly when they are the same
allocation. -/
def tokenEq (a b : Nat) : Bool := a == b

/-- Models CPython's default pickling of a `Token` instance (protocol >= 2,
`object.__reduce_ex__` / `reduce_newobj`): `Token` defines neither
`__reduce__` nor `__getnewargs__`, so dumping records `(Token, (), state)`
with `state = {"name": self.name}`, and loading calls `Token.__new__(Token)`
with no arguments, then restores the instance `__dict__` from `state`.
`__init__` is not called on load. -/
def pickleRoundTrip (s : TokenState) (id : Nat) : Nat × TokenState :=
  let state := alistGet s.heap id
  let (fresh, s') := tokenDunderNew none s
  match state with
  | some nm => (fresh, { s' with heap := alistPut s'.heap fresh nm })
  | none => (fresh, s')

/-- Well-formedness of a token state: every interned object identity was
actually allocated (is below the fresh-allocation counter). -/
def TokenWF (s : TokenState) : Prop := ∀ p ∈ s.interned, p.2 < s.nextId

instance (s : TokenState) : Decidable (TokenWF s) := by
  unfold TokenWF; infer_instance

/-! ## Values, exceptions, targets -/

/-- Python runtime values as they occur in the resolver: `None`, numbers,
strings, tuples, lists, dicts (string keys: keyword-argument mappings),
functions, token objects (by allocation identity), and instances constructed
by `_type(*args, **kwargs)`, recorded with the class identifier and the
argument lists the constructor received. -/
inductive Value where
  | none
  | vint (n : Int)
  | vstr (s : String)
  | tuple (vs : List Value)
  | list (vs : List Value)
  | dict (kvs : List (String × Value))
  | func
  | token (id : Nat)
  | obj (cls : String) (args : List Value) (kwargs : List (String × Value))

/-- Python exception classes relevant here: `TypeError`, its subclass
`ResolveError` (`class ResolveError(TypeError)`), and `RecursionError` for
stack exhaustion on cyclic dependency graphs. -/
inductive ExcClass where
  | typeError
  | resolveError
  | recursionError
deriving DecidableEq

/-- Subclass test on the modelled exception classes: `ResolveError` is a
subclass of `TypeError`; every class is a subclass of itself. -/
def excSubclass : ExcClass → ExcClass → Bool
  | .resolveError, .typeError => true
  | a, b => a == b

/-- A raised exception: its class and the `args` tuple (here: the message
strings handed to the constructor). -/
structure PyErr where
  cls : ExcClass
  args : List String
deriving DecidableEq

/-- Models `ResolveError.__init__(self, *args)`, whose body is
`super().__init__(*args)`: the arguments are passed through unchanged and no
further fields are set. -/
def resolveErrorInit (args : List String) : PyErr := ⟨.resolveError, args⟩

/-- Raising `ResolveError(msg)` with a single message string. -/
def resolveErrorMk (msg : String) : PyErr := resolveErrorInit [msg]

/-- Models `except C:` matching a raised exception: the handler catches the
exception exactly when the exception's class is a subclass of `C`. -/
def catches (handler : ExcClass) (e : PyErr) : Bool := excSubclass e.cls handler

/-- A registration key: a class (by identifier) or a token object (by
allocation identity).  Python compares both by identity. -/
inductive RKey where
  | cls (id : String)
  | tok (id : Nat)
deriving DecidableEq

/-- What `Container.resolve` may be handed as its `_type` argument: a class
(by identifier) or a non-class runtime value. -/
inductive Target where
  | cls (id : String)
  | value (v : Value)

mutual
/-- Models `isinstance(v, Hashable)` for the modelled values: lists and dicts
are unhashable, a tuple is hashable when all its elements are. -/
def valueHashable : Value → Bool
  | .list _ => false
  | .dict _ => false
  | .tuple vs => valuesHashable vs
  | _ => true

/-- All values in the list are hashable. -/
def valuesHashable : List Value → Bool
  | [] => true
  | v :: vs => valueHashable v && valuesHashable vs
end

/-- Models `isinstance(_type, Hashable)` on a resolve target: classes are
always hashable. -/
def targetHashable : Target → Bool
  | .cls _ => true
  | .value v => valueHashable v

/-! ## Constructor signatures and annotations -/

/-- `inspect.Parameter.kind`. -/
inductive PKind where
  | positionalOnly
  | positionalOrKeyword
  | varPositional
  | keywordOnly
  | varKeyword
deriving DecidableEq

/-- An auxiliary metadata tag inside an `Annotated[...]` envelope: either a
`Token` object (by allocation identity) or any other Python value (which the
tag scan skips, since it is not an instance of `Token`). -/
inductive Tag where
  | token (id : Nat)
  | other

/-- A type annotation as `_resolve_argument` case-analyses it: absent
(`Parameter.empty`), a class reference, a plain string forward reference, a
`typing.ForwardRef` wrapper, a `Literal[...]` constraint, or an
`Annotated[base, tag, ...]` envelope. -/
inductive Ann where
  | empty
  | cls (id : String)
  | strRef (s : String)
  | fwdRef (s : String)
  | lit
  | annotated (base : Ann) (tags : List Tag)

/-- One parameter of a constructor signature: name, kind, optional default
(`Parameter.empty` becomes `none`), and its type annotation (field `ann`
models `Parameter.annotation`). -/
structure Param where
  name : String
  kind : PKind
  default : Option Value
  ann : Ann

/-- A Python class as the resolver observes it: `__name__`, the defining
module (`inspect.getmodule`), whether `type(cls) is not type` (built through a
custom metaclass), and the full parameter list of `__init__`, the `self`
parameter included, in declaration order. -/
structure ClassDef where
  name : String
  module : String
  customMeta : Bool
  params : List Param

/-- The static environment: the class table (class identifier to definition)
and, per module, the module's attribute namespace (attribute name to the
object bound there), used by `getattr(inspect.getmodule(_type), name)`.
A class defined in a narrower scope (e.g. function-local) is absent from its
module's namespace. -/
structure Env where
  classes : List (String × ClassDef)
  modules : List (String × List (String × Target))

/-- Look up a class definition. -/
def lookupClass (env : Env) (id : String) : Option ClassDef :=
  alistGet env.classes id

/-- Models `getattr(inspect.getmodule(_type), name)`: `none` is the
`AttributeError` case. -/
def moduleAttr (env : Env) (module attr : String) : Option Target :=
  (alistGet env.modules module).bind (fun attrs => alistGet attrs attr)

/-! ## Registrations -/

/-- A registered zero-argument factory.  `const v` is the closure
`lambda: value` stored by `register_value` (the value is captured once);
`aliasOf t` is the closure `lambda: self.resolve(alias)` stored by
`register_alias`. -/
inductive Factory where
  | const (v : Value)
  | aliasOf (t : Target)

/-- A `Container`: its private registration table `_registrations`. -/
structure Container where
  regs : List (RKey × Factory)

/-- The empty container, `Container()`. -/
def Container.empty : Container := ⟨[]⟩

/-- Models `container.register(key, factory)`: store or overwrite. -/
def Container.register (c : Container) (k : RKey) (f : Factory) : Container :=
  ⟨alistPut c.regs k f⟩

/-- Models `container.register_value(key, value)`:
`self.register(key, lambda: value)`. -/
def Container.registerValue (c : Container) (k : RKey) (v : Value) : Container :=
  c.register k (.const v)

/-- Models `container.register_alias(key, alias)`:
`self.register(key, lambda: self.resolve(alias))`. -/
def Container.registerAlias (c : Container) (k : RKey) (t : Target) : Container :=
  c.register k (.aliasOf t)

/-- Registration-table lookup, `self._registrations[key]`. -/
def lookupReg (c : Container) (k : RKey) : Option Factory :=
  alistGet c.regs k

/-! ## Signature binding (`inspect.Signature.bind_partial` and
`BoundArguments.args` / `BoundArguments.kwargs`)

`resolve` calls `bind_partial(None, *args, **kwargs)` on the signature of
`_type.__init__` (so `None` is bound to `self`), fills every parameter missing
from `bound.arguments` via `_resolve_argument`, and finally invokes
`_type(*bound.args[1:], **bound.kwargs)`. -/

/-- The error `TypeError("too many positional arguments")` raised by
`Signature._bind` (a plain `TypeError`, not a `ResolveError`). -/
def tooManyPositional : PyErr := ⟨.typeError, ["too many positional arguments"]⟩

/-- Phase one of `Signature._bind(partial=True)`: consume positional arguments
against the parameters in declaration order.  Returns the bound-arguments list
built so far plus the parameters left for the keyword phase.  A
variadic-positional parameter swallows every remaining positional argument as
a tuple. -/
def bindPositional (kwargs : List (String × Value)) :
    List Param → List Value → List (String × Value) →
    Except PyErr (List (String × Value) × List Param)
  | ps, [], acc => .ok (acc, ps)
  | [], _ :: _, _ => .error tooManyPositional
  | p :: ps, a :: as, acc =>
    if p.kind = .keywordOnly ∨ p.kind = .varKeyword then .error tooManyPositional
    else if p.kind = .varPositional then .ok (acc ++ [(p.name, .tuple (a :: as))], ps)
    else if (alistGet kwargs p.name).isSome ∧ p.kind ≠ .positionalOnly then
      .error ⟨.typeError, ["multiple values for argument " ++ p.name]⟩
    else bindPositional kwargs ps as (acc ++ [(p.name, a)])

/-- Phase two of `Signature._bind(partial=True)`: match the remaining named
arguments against the remaining parameters; a variadic-keyword parameter
collects whatever named arguments are left at the end (and is left unbound
when none are, so that `_resolve_argument` later fills it with `{}`). -/
def bindKeyword :
    List Param → List (String × Value) → List (String × Value) → Option String →
    Except PyErr (List (String × Value))
  | [], kwargs, acc, kwParam =>
    if kwargs.isEmpty then .ok acc
    else
      match kwParam with
      | some n => .ok (acc ++ [(n, .dict kwargs)])
      | none => .error ⟨.typeError, ["got an unexpected keyword argument"]⟩
  | p :: ps, kwargs, acc, kwParam =>
    if p.kind = .varKeyword then bindKeyword ps kwargs acc (some p.name)
    else if p.kind = .varPositional then bindKeyword ps kwargs acc kwParam
    else
      match alistGet kwargs p.name with
      | Option.none => bindKeyword ps kwargs acc kwParam
      | some v =>
        if p.kind = .positionalOnly then
          .error ⟨.typeError, [p.name ++ " parameter is positional only"]⟩
        else bindKeyword ps (alistRemove kwargs p.name) (acc ++ [(p.name, v)]) kwParam

/-- Models `signature.bind_partial(*args, **kwargs).arguments`: the
insertion-ordered mapping of parameter names to bound values. -/
def bindPartial (params : List Param) (args : List Value)
    (kwargs : List (String × Value)) : Except PyErr (List (String × Value)) :=
  match bindPositional kwargs params args [] with
  | .error e => .error e
  | .ok (acc, rest) => bindKeyword rest kwargs acc Option.none

/-- The elements of a tuple value (`BoundArguments.args` iterates the value
bound to a variadic-positional parameter). -/
def tupleElems : Value → List Value
  | .tuple vs => vs
  | v => [v]

/-- The entries of a dict value (`BoundArguments.kwargs` splices the mapping
bound to a variadic-keyword parameter). -/
def dictEntries : Value → List (String × Value)
  | .dict kvs => kvs
  | _ => []

/-- Models the `BoundArguments.args` property: walk the parameters in order,
collecting bound values (splicing a variadic-positional tuple), stopping at
the first keyword-only or variadic-keyword parameter or the first unbound
parameter. -/
def boundArgsList : List Param → List (String × Value) → List Value
  | [], _ => []
  | p :: ps, arguments =>
    if p.kind = .keywordOnly ∨ p.kind = .varKeyword then []
    else
      match alistGet arguments p.name with
      | Option.none => []
      | some v =>
        (if p.kind = .varPositional then tupleElems v else [v]) ++
          boundArgsList ps arguments

/-- Collection phase of the `BoundArguments.kwargs` property: every remaining
parameter present in the bound arguments contributes its entry, a
variadic-keyword parameter contributing the entries of its dict. -/
def collectKwargs : List Param → List (String × Value) → List (String × Value)
  | [], _ => []
  | p :: ps, arguments =>
    match alistGet arguments p.name with
    | Option.none => collectKwargs ps arguments
    | some v =>
      (if p.kind = .varKeyword then dictEntries v else [(p.name, v)]) ++
        collectKwargs ps arguments

/-- Models the `BoundArguments.kwargs` property: skip the leading parameters
that went (or could have gone) positionally; from the first keyword-only or
variadic-keyword parameter — or the first unbound parameter, which itself is
skipped — collect the rest as a name-to-value mapping. -/
def boundKwargsList : List Param → List (String × Value) → List (String × Value)
  | [], _ => []
  | p :: ps, arguments =>
    if p.kind = .keywordOnly ∨ p.kind = .varKeyword then
      collectKwargs (p :: ps) arguments
    else
      match alistGet arguments p.name with
      | Option.none => collectKwargs ps arguments
      | some _ => boundKwargsList ps arguments

/-! ## The resolver (`Container.resolve`, `_resolve_argument`,
`_resolve_forward_declaration`)

All functions thread a log of invoked registration keys (one entry per factory
invocation) and are parameterised by the resolver `R` used for nested
`self.resolve(...)` calls; `resolveF` ties the knot, spending one unit of fuel
per nesting level. -/

/-- The outcome of a resolution step: the raised exception or the produced
value, together with the factory-invocation log. -/
abbrev RRes := (Except PyErr Value) × List RKey

/-- Invoke a registered factory, `self._registrations[key]()`: the invocation
is logged; a `register_value` closure returns its captured value, a
`register_alias` closure resolves the aliased key through the container. -/
def runFactoryWith (R : Target → List RKey → RRes) (key : RKey) (f : Factory)
    (log : List RKey) : RRes :=
  match f with
  | .const v => (.ok v, log ++ [key])
  | .aliasOf t => R t (log ++ [key])

/-- Scan the auxiliary tags of an `Annotated[...]` envelope left to right for
the first tag that is a `Token` and has an entry in the registration table
(`isinstance(annotation, Token) and annotation in self._registrations`). -/
def findRegisteredToken (c : Container) : List Tag → Option (RKey × Factory)
  | [] => Option.none
  | .token k :: ts =>
    match lookupReg c (.tok k) with
    | some f => some (.tok k, f)
    | Option.none => findRegisteredToken c ts
  | .other :: ts => findRegisteredToken c ts

/-- Error message `f"Cannot resolve argument {name} for {type}: {tail}"`. -/
def argErrMsg (aname tname tail : String) : String :=
  "Cannot resolve argument " ++ aname ++ " for " ++ tname ++ ": " ++ tail

/-- Models `Container._resolve_forward_declaration`: look the class name up as
an attribute of the module defining the target class and resolve what is
found; an absent attribute raises
`ResolveError(f"Cannot resolve argument ... : class declaration not available
in module")`. -/
def resolveForwardWith (R : Target → List RKey → RRes) (env : Env)
    (cd : ClassDef) (aname cname : String) (log : List RKey) : RRes :=
  match moduleAttr env cd.module cname with
  | Option.none =>
    (.error (resolveErrorMk
      (argErrMsg aname cd.name "class declaration not available in module")), log)
  | some tgt => R tgt log

/-- The checks `_resolve_argument` runs on the effective annotation after the
`Annotated` unwrap: `Literal` is rejected, strings and `ForwardRef` wrappers
go through forward-declaration lookup, anything else is resolved recursively
as a type. -/
def resolveEffectiveWith (R : Target → List RKey → RRes) (env : Env)
    (cd : ClassDef) (aname : String) (ann : Ann) (log : List RKey) : RRes :=
  match ann with
  | .lit => (.error (resolveErrorMk (argErrMsg aname cd.name "literal")), log)
  | .strRef s => resolveForwardWith R env cd aname s log
  | .fwdRef s => resolveForwardWith R env cd aname s log
  | .cls id => R (.cls id) log
  | .empty => R (.value .func) log
  | .annotated _ _ => R (.value .func) log

/-- Models `Container._resolve_argument` for one unfilled parameter: a
declared default wins; an unbound variadic-positional parameter becomes `()`
and an unbound variadic-keyword parameter becomes `{}`; a missing annotation
raises `ResolveError(... no type annotation)`; an `Annotated` envelope is
unwrapped and its tags scanned for a registered token, whose factory result is
returned at once; otherwise the effective annotation is checked and resolved. -/
def resolveArgumentWith (R : Target → List RKey → RRes) (env : Env)
    (c : Container) (cd : ClassDef) (p : Param) (log : List RKey) : RRes :=
  match p.default with
  | some d => (.ok d, log)
  | Option.none =>
    if p.kind = .varPositional then (.ok (.tuple []), log)
    else if p.kind = .varKeyword then (.ok (.dict []), log)
    else
      match p.ann with
      | .empty =>
        (.error (resolveErrorMk (argErrMsg p.name cd.name "no type annotation")), log)
      | .annotated base tags =>
        match findRegisteredToken c tags with
        | some kf => runFactoryWith R kf.1 kf.2 log
        | Option.none => resolveEffectiveWith R env cd p.name base log
      | ann => resolveEffectiveWith R env cd p.name ann log

/-- The gap-filling loop of `resolve`: walk the signature's parameters in
order and bind every parameter missing from `bound.arguments` to the value
`_resolve_argument` produces (Python inserts it at the end of the ordered
mapping). -/
def fillParamsWith (R : Target → List RKey → RRes) (env : Env) (c : Container)
    (cd : ClassDef) :
    List Param → List (String × Value) → List RKey →
    (Except PyErr (List (String × Value))) × List RKey
  | [], arguments, log => (.ok arguments, log)
  | p :: ps, arguments, log =>
    if (alistGet arguments p.name).isSome then
      fillParamsWith R env c cd ps arguments log
    else
      match resolveArgumentWith R env c cd p log with
      | (.error e, log') => (.error e, log')
      | (.ok v, log') =>
        fillParamsWith R env c cd ps (arguments ++ [(p.name, v)]) log'

/-- Models `Container.resolve(_type, *args, **kwargs)` with explicit fuel (one
unit per nesting level of `resolve`).  In order: the hashable and class checks
(`ResolveError("Can only resolve classes")`), the registration-table lookup
(a registered factory wins and is invoked fresh), the custom-metaclass guard
(`type(_type) is not type`), `bind_partial(None, *args, **kwargs)` on the
`__init__` signature, gap filling, and finally the constructor call
`_type(*bound.args[1:], **bound.kwargs)`, recorded as a `Value.obj`. -/
def resolveF : Nat → Env → Container → Target → List Value →
    List (String × Value) → List RKey → RRes
  | 0, _, _, _, _, _, log =>
    (.error ⟨.recursionError, ["maximum recursion depth exceeded"]⟩, log)
  | fuel + 1, env, c, t, args, kwargs, log =>
    if ¬ targetHashable t then (.error (resolveErrorMk "Can only resolve classes"), log)
    else
      match t with
      | .value _ => (.error (resolveErrorMk "Can only resolve classes"), log)
      | .cls id =>
        match lookupReg c (.cls id) with
        | some f =>
          runFactoryWith (fun t' log' => resolveF fuel env c t' [] [] log')
            (.cls id) f log
        | Option.none =>
          match lookupClass env id with
          | Option.none => (.error ⟨.typeError, ["class object not modelled"]⟩, log)
          | some cd =>
            if cd.customMeta then
              (.error (resolveErrorMk "Cannot auto-resolve classes with custom meta-class"), log)
            else
              match bindPartial cd.params (Value.none :: args) kwargs with
              | .error e => (.error e, log)
              | .ok arguments =>
                match fillParamsWith (fun t' log' => resolveF fuel env c t' [] [] log')
                    env c cd cd.params arguments log with
                | (.error e, log') => (.error e, log')
                | (.ok arguments', log') =>
                  (.ok (.obj id ((boundArgsList cd.params arguments').drop 1)
                    (boundKwargsList cd.params arguments')), log')

/-- Iterate `n` independent `resolve` calls on the same target, collecting the
factory-invocation log (each call starts from the log the previous one left,
so invocation counts accumulate). -/
def resolveIter (fuel : Nat) (env : Env) (c : Container) (t : Target) :
    Nat → List RKey → List RKey
  | 0, log => log
  | n + 1, log => resolveIter fuel env c t n (resolveF fuel env c t [] [] log).2

/-- Substring containment on strings (does `sub` occur inside `s`), used to
state that an error message mentions a name. -/
def StrContains (s sub : String) : Prop := sub.data <:+: s.data

instance (s sub : String) : Decidable (StrContains s sub) := by
  unfold StrContains; infer_instance

/-! ## Concrete embedded classes from the test suite -/

/-- A class with no explicit `__init__` inherits `object.__init__`, whose
signature is `(self, /, *args, **kwargs)` with no annotations. -/
def emptyClass (name module : String) : ClassDef :=
  ⟨name, module, false,
   [⟨"self", .positionalOnly, Option.none, .empty⟩,
    ⟨"args", .varPositional, Option.none, .empty⟩,
    ⟨"kwargs", .varKeyword, Option.none, .empty⟩]⟩

/-- The class of `test_resolve_with_parameters`:
`def __init__(self, a, /, b, *args, c, inner_from_container: Inner, **kwargs)`. -/
def tC3 : ClassDef :=
  ⟨"T", "m", false,
   [⟨"self", .positionalOnly, Option.none, .empty⟩,
    ⟨"a", .positionalOnly, Option.none, .empty⟩,
    ⟨"b", .positionalOrKeyword, Option.none, .empty⟩,
    ⟨"args", .varPositional, Option.none, .empty⟩,
    ⟨"c", .keywordOnly, Option.none, .empty⟩,
    ⟨"inner_from_container", .keywordOnly, Option.none, .cls "Inner"⟩,
    ⟨"kwargs", .varKeyword, Option.none, .empty⟩]⟩

/-- Environment for the signature-binding example: `T` and the dependency
class `Inner` in module `m`. -/
def envC3 : Env :=
  ⟨[("T", tC3), ("Inner", emptyClass "Inner" "m")],
   [("m", [("T", .cls "T"), ("Inner", .cls "Inner")])]⟩

/-- The `Inner` instance value-registered in the signature-binding example. -/
def innerValC3 : Value := .obj "Inner" [] []

/-- Container with `Inner` value-registered,
`container.register_value(Inner, inner)`. -/
def contC3 : Container := Container.empty.registerValue (.cls "Inner") innerValC3

/-- The class of `test_resolve_module_forward_referred_class`:
`def __init__(self, registered: "ForwardReferent")`. -/
def tC5 : ClassDef :=
  ⟨"T", "m", false,
   [⟨"self", .positionalOrKeyword, Option.none, .empty⟩,
    ⟨"registered", .positionalOrKeyword, Option.none, .strRef "ForwardReferent"⟩]⟩

/-- The class of `test_resolve_module_local_referent_fails`: its parameter's
annotation names a class that is only visible in a function-local scope, so
the name is not an attribute of module `m`. -/
def tLocalC5 : ClassDef :=
  ⟨"TL", "m", false,
   [⟨"self", .positionalOrKeyword, Option.none, .empty⟩,
    ⟨"registered", .positionalOrKeyword, Option.none, .strRef "LocalReferent"⟩]⟩

/-- Environment for the forward-reference examples: module `m` exposes
`ForwardReferent` but not `LocalReferent`. -/
def envC5 : Env :=
  ⟨[("T", tC5), ("TL", tLocalC5), ("ForwardReferent", emptyClass "ForwardReferent" "m")],
   [("m", [("ForwardReferent", .cls "ForwardReferent"), ("T", .cls "T"), ("TL", .cls "TL")])]⟩

/-- Environment with the metaclassed class of
`test_cannot_auto_resolve_metaclassed_objects`: `type(Child) is Meta`, not
`type`. -/
def envMeta : Env :=
  ⟨[("Child", ⟨"Child", "m", true,
     [⟨"self", .positionalOnly, Option.none, .empty⟩,
      ⟨"args", .varPositional, Option.none, .empty⟩,
      ⟨"kwargs", .varKeyword, Option.none, .empty⟩]⟩)], []⟩

/-- Container for the token-fallback example of
`test_will_fallback_to_first_known_token`: tokens `A`, `B`, `C` carry
identities 0, 1, 2; only `B` and `C` are value-registered. -/
def contC2 : Container :=
  (Container.empty.registerValue (.tok 1) (.vstr "b")).registerValue
    (.tok 2) (.vstr "c")

/-- Container with class `T` value-registered, for the registration-lookup
examples. -/
def contC1 : Container := Container.empty.registerValue (.cls "T") (.vstr "t-instance")

/-! ## Helper lemmas -/

theorem alistGet_mem {α β : Type} [DecidableEq α] {l : List (α × β)} {k : α}
    {v : β} (h : alistGet l k = some v) : (k, v) ∈ l := by
  induction l with
  | nil => simp [alistGet] at h
  | cons p rest ih =>
    obtain ⟨a, b⟩ := p
    unfold alistGet at h
    split at h
    · cases h
      simp_all
    · exact List.mem_cons_of_mem _ (ih h)

/-! ## Claim theorems -/

/-- C10: `ResolveError` subclasses `TypeError`: a handler for `TypeError`
catches every resolution failure, and `ResolveError.__init__` passes its
message arguments through to the base class unchanged, adding no structured
fields. -/
theorem c10_resolveError_is_typeError :
    excSubclass .resolveError .typeError = true ∧
    (∀ args : List String, resolveErrorInit args = ⟨.resolveError, args⟩) ∧
    (∀ args : List String, catches .typeError (resolveErrorInit args) = true) :=
  ⟨rfl, fun _ => rfl, fun _ => rfl⟩

/-- C6: named tokens are interned — the first `Token(name)` call creates and
interns the object, every later call with the same name (constructor syntax or
the indexer syntax `Token[name]`, which is defined as `Token(name)` and so
consults the same registry) returns the identical object; every anonymous
`Token()` allocates a globally fresh object, distinct from every other token;
and tokens compare equal exactly when they are the same object. -/
theorem c6_token_identity :
    (∀ name s, (tokenNew (some name) ((tokenNew (some name) s).2)).1 =
      (tokenNew (some name) s).1) ∧
    (∀ item s, tokenClassGetitem item s = tokenNew (some item) s) ∧
    (∀ name s id, alistGet s.interned name = some id →
      tokenNew (some name) s = (id, tokenInit id (some name) s)) ∧
    (∀ name s, alistGet s.interned name = Option.none →
      (tokenNew (some name) s).1 = s.nextId ∧
      alistGet (tokenNew (some name) s).2.interned name = some s.nextId) ∧
    (∀ s, (tokenNew Option.none ((tokenNew Option.none s).2)).1 ≠
      (tokenNew Option.none s).1) ∧
    (∀ s name id, TokenWF s → alistGet s.interned name = some id →
      (tokenNew Option.none s).1 ≠ id) ∧
    (∀ a b, tokenEq a b = true ↔ a = b) := by
  refine ⟨?_, ?_, ?_, ?_, ?_, ?_, ?_⟩
  · intro name s
    cases h : alistGet s.interned name with
    | none => simp [tokenNew, tokenDunderNew, tokenInit, h, alistGet]
    | some id => simp [tokenNew, tokenDunderNew, tokenInit, h]
  · intro item s
    rfl
  · intro name s id h
    simp [tokenNew, tokenDunderNew, h]
  · intro name s h
    simp [tokenNew, tokenDunderNew, tokenInit, h, alistGet]
  · intro s
    simp [tokenNew, tokenDunderNew, tokenInit]
  · intro s name id hwf h
    have hmem := alistGet_mem h
    have hlt := hwf _ hmem
    simp only [tokenNew, tokenDunderNew, tokenInit]
    omega
  · intro a b
    simp [tokenEq]

/-- C6 witness: concrete runs of the token constructors starting from the
empty state. -/
theorem c6_token_identity_witness :
    tokenNew (some "A") TokenState.empty =
      (0, ⟨[("A", 0)], [(0, some "A")], 1⟩) ∧
    (tokenNew (some "A") ((tokenNew (some "A") TokenState.empty).2)).1 =
      (tokenNew (some "A") TokenState.empty).1 ∧
    (tokenNew Option.none (⟨[("A", 0)], [(0, some "A")], 1⟩ : TokenState)).1 ≠ 0 := by
  refine ⟨by decide, c6_token_identity.1 "A" TokenState.empty, ?_⟩
  exact c6_token_identity.2.2.2.2.2.1 ⟨[("A", 0)], [(0, some "A")], 1⟩ "A" 0
    (by decide) (by decide)

/-- C7: pickling evidence.  Interning `Token("A")` in the empty state yields
the object with identity 0; CPython's default pickling of that object calls
`Token.__new__(Token)` with no arguments on load (the class defines no
`__reduce__`/`__getnewargs__`), allocating the fresh object 1; so the
deserialized token is not identity-equal to the canonical interned instance,
although the registry still maps `"A"` to object 0. -/
theorem c7_pickle_returns_fresh_object :
    tokenNew (some "A") TokenState.empty =
      (0, ⟨[("A", 0)], [(0, some "A")], 1⟩) ∧
    pickleRoundTrip (⟨[("A", 0)], [(0, some "A")], 1⟩ : TokenState) 0 =
      (1, ⟨[("A", 0)], [(0, some "A"), (1, some "A")], 2⟩) ∧
    (1 : Nat) ≠ 0 ∧
    alistGet (⟨[("A", 0)], [(0, some "A")], 1⟩ : TokenState).interned "A" = some 0 := by
  refine ⟨by decide, by decide, by decide, by decide⟩

/-- C4: strict precedence of the argument-resolution rules, for an arbitrary
nested resolver `R` (none of these rules invokes `R` or any factory — the log
comes back unchanged): a declared default always wins; an unbound
variadic-positional parameter becomes `()` and an unbound variadic-keyword
parameter becomes `{}`; a parameter with no default, no variadic kind and no
annotation raises `ResolveError(... no type annotation)`. -/
theorem c4_resolution_rule_precedence :
    (∀ R env c cd aname kind ann d log,
      resolveArgumentWith R env c cd ⟨aname, kind, some d, ann⟩ log = (.ok d, log)) ∧
    (∀ R env c cd aname ann log,
      resolveArgumentWith R env c cd ⟨aname, .varPositional, Option.none, ann⟩ log =
        (.ok (.tuple []), log)) ∧
    (∀ R env c cd aname ann log,
      resolveArgumentWith R env c cd ⟨aname, .varKeyword, Option.none, ann⟩ log =
        (.ok (.dict []), log)) ∧
    (∀ R env c cd aname kind log,
      kind ≠ PKind.varPositional → kind ≠ PKind.varKeyword →
      resolveArgumentWith R env c cd ⟨aname, kind, Option.none, .empty⟩ log =
        (.error (resolveErrorMk (argErrMsg aname cd.name "no type annotation")), log)) := by
  refine ⟨fun _ _ _ _ _ _ _ _ _ => rfl, ?_, ?_, ?_⟩
  · intro R env c cd aname ann log
    simp [resolveArgumentWith]
  · intro R env c cd aname ann log
    simp [resolveArgumentWith]
  · intro R env c cd aname kind log h1 h2
    simp [resolveArgumentWith, h1, h2]

/-- C4 witness: concrete instances of each rule. -/
theorem c4_resolution_rule_precedence_witness :
    resolveArgumentWith (fun _ l => (.ok .none, l)) ⟨[], []⟩ Container.empty
      ⟨"T", "m", false, []⟩ ⟨"a", .positionalOrKeyword, some (.vint 7), .lit⟩ [] =
      (.ok (.vint 7), []) ∧
    resolveArgumentWith (fun _ l => (.ok .none, l)) ⟨[], []⟩ Container.empty
      ⟨"T", "m", false, []⟩ ⟨"args", .varPositional, Option.none, .empty⟩ [] =
      (.ok (.tuple []), []) ∧
    resolveArgumentWith (fun _ l => (.ok .none, l)) ⟨[], []⟩ Container.empty
      ⟨"T", "m", false, []⟩ ⟨"kwargs", .varKeyword, Option.none, .empty⟩ [] =
      (.ok (.dict []), []) ∧
    resolveArgumentWith (fun _ l => (.ok .none, l)) ⟨[], []⟩ Container.empty
      ⟨"T", "m", false, []⟩ ⟨"a", .positionalOrKeyword, Option.none, .empty⟩ [] =
      (.error (resolveErrorMk (argErrMsg "a" "T" "no type annotation")), []) := by
  refine ⟨?_, ?_, ?_, ?_⟩
  · exact c4_resolution_rule_precedence.1 _ _ _ _ "a" _ _ _ []
  · exact c4_resolution_rule_precedence.2.1 _ _ _ _ "args" _ []
  · exact c4_resolution_rule_precedence.2.2.1 _ _ _ _ "kwargs" _ []
  · exact c4_resolution_rule_precedence.2.2.2 _ _ _ ⟨"T", "m", false, []⟩ "a" _ []
      (by decide) (by decide)

/-- C9: a parameter whose effective annotation is a `Literal[...]` constraint
always fails with `ResolveError(... literal)` — both when the literal is the
annotation itself and when it is the base of an `Annotated[...]` envelope none
of whose tags is a registered token. -/
theorem c9_literal_rejection :
    (∀ R env c cd aname kind log,
      kind ≠ PKind.varPositional → kind ≠ PKind.varKeyword →
      resolveArgumentWith R env c cd ⟨aname, kind, Option.none, .lit⟩ log =
        (.error (resolveErrorMk (argErrMsg aname cd.name "literal")), log)) ∧
    (∀ R env c cd aname kind tags log,
      kind ≠ PKind.varPositional → kind ≠ PKind.varKeyword →
      findRegisteredToken c tags = Option.none →
      resolveArgumentWith R env c cd ⟨aname, kind, Option.none, .annotated .lit tags⟩ log =
        (.error (resolveErrorMk (argErrMsg aname cd.name "literal")), log)) := by
  constructor
  · intro R env c cd aname kind log h1 h2
    simp [resolveArgumentWith, resolveEffectiveWith, h1, h2]
  · intro R env c cd aname kind tags log h1 h2 h3
    simp [resolveArgumentWith, resolveEffectiveWith, h1, h2, h3]

/-- C9 witness: the parameter `a: Annotated[Literal[0], ""]` of
`test_cannot_resolve_literals_as_annotated` (the empty-string tag is not a
`Token`) fails with the literal error. -/
theorem findRegisteredToken_append {c : Container} {ts1 rest : List Tag}
    (h : ∀ j, Tag.token j ∈ ts1 → lookupReg c (.tok j) = Option.none) :
    findRegisteredToken c (ts1 ++ rest) = findRegisteredToken c rest := by
  induction ts1 with
  | nil => rfl
  | cons t ts ih =>
    cases t with
    | token j =>
      have hj := h j (List.mem_cons_self _ _)
      simp only [List.cons_append, findRegisteredToken, hj]
      exact ih (fun j' hj' => h j' (List.mem_cons_of_mem _ hj'))
    | other =>
      simp only [List.cons_append, findRegisteredToken]
      exact ih (fun j' hj' => h j' (List.mem_cons_of_mem _ hj'))

/-- C2: scanning the tags of an `Annotated[...]` envelope left to right, the
first tag that is a `Token` with an entry in the registration table has its
factory invoked and its result returned at once (earlier unregistered tokens
and non-token tags are skipped); when no tag is a registered token, resolution
continues with the unwrapped base type, falling back to type-based resolution. -/
theorem c2_token_tag_scan :
    (∀ R env c cd aname kind base ts1 k f ts2 log,
      kind ≠ PKind.varPositional → kind ≠ PKind.varKeyword →
      (∀ j, Tag.token j ∈ ts1 → lookupReg c (.tok j) = Option.none) →
      lookupReg c (.tok k) = some f →
      resolveArgumentWith R env c cd
        ⟨aname, kind, Option.none, .annotated base (ts1 ++ Tag.token k :: ts2)⟩ log =
        runFactoryWith R (.tok k) f log) ∧
    (∀ R env c cd aname kind bid tags log,
      kind ≠ PKind.varPositional → kind ≠ PKind.varKeyword →
      findRegisteredToken c tags = Option.none →
      resolveArgumentWith R env c cd
        ⟨aname, kind, Option.none, .annotated (.cls bid) tags⟩ log =
        R (.cls bid) log) := by
  constructor
  · intro R env c cd aname kind base ts1 k f ts2 log h1 h2 hclean hreg
    have hfind : findRegisteredToken c (ts1 ++ Tag.token k :: ts2) =
        some (.tok k, f) := by
      rw [findRegisteredToken_append hclean]
      simp [findRegisteredToken, hreg]
    simp [resolveArgumentWith, h1, h2, hfind]
  · intro R env c cd aname kind bid tags log h1 h2 hfind
    simp [resolveArgumentWith, resolveEffectiveWith, h1, h2, hfind]

/-- C2 witness: the parameter of `test_will_fallback_to_first_known_token`,
annotated `Annotated[Base, Token("A"), Token("B"), Token("C")]` with only `B`
and `C` registered, resolves to the value registered for `B`; and with an
empty container the same parameter falls back to resolving the base class. -/
theorem c2_token_tag_scan_witness :
    resolveArgumentWith (fun _ l => (.ok (.vstr "base"), l)) ⟨[], []⟩ contC2
      ⟨"T", "m", false, []⟩ ⟨"resolved_value", .positionalOrKeyword, Option.none,
        .annotated (.cls "Base") [.token 0, .token 1, .token 2]⟩ [] =
      (.ok (.vstr "b"), [.tok 1]) ∧
    resolveArgumentWith (fun _ l => (.ok (.vstr "base"), l)) ⟨[], []⟩ Container.empty
      ⟨"T", "m", false, []⟩ ⟨"resolved_value", .positionalOrKeyword, Option.none,
        .annotated (.cls "Base") [.token 0, .token 1, .token 2]⟩ [] =
      (.ok (.vstr "base"), []) := by
  constructor
  · have h := c2_token_tag_scan.1 (fun _ l => (.ok (.vstr "base"), l)) ⟨[], []⟩
      contC2 ⟨"T", "m", false, []⟩ "resolved_value" .positionalOrKeyword
      (.cls "Base") [.token 0] 1 (.const (.vstr "b")) [.token 2] []
      (by decide) (by decide)
      (by intro j hj; simp at hj; subst hj; rfl)
      rfl
    exact h
  · exact c2_token_tag_scan.2 (fun _ l => (.ok (.vstr "base"), l)) ⟨[], []⟩
      Container.empty ⟨"T", "m", false, []⟩ "resolved_value" .positionalOrKeyword
      "Base" [.token 0, .token 1, .token 2] [] (by decide) (by decide) rfl

/-- C5: a deferred/forward reference (a plain string annotation or a
`ForwardRef` wrapper) is looked up as an attribute of the module defining the
target class and the class found there is resolved recursively; a name absent
from that module (such as a function-local class) raises
`ResolveError(... class declaration not available in module)`.  The module
namespace is a mapping, so resolution does not depend on declaration order;
concretely, the classes of `test_resolve_module_forward_referred_class` and
`test_resolve_module_local_referent_fails` behave as the tests record. -/
theorem c5_forward_reference :
    (∀ R env cd aname s tgt log, moduleAttr env cd.module s = some tgt →
      resolveForwardWith R env cd aname s log = R tgt log) ∧
    (∀ R env c cd aname kind s tgt log,
      kind ≠ PKind.varPositional → kind ≠ PKind.varKeyword →
      moduleAttr env cd.module s = some tgt →
      resolveArgumentWith R env c cd ⟨aname, kind, Option.none, .strRef s⟩ log =
        R tgt log ∧
      resolveArgumentWith R env c cd ⟨aname, kind, Option.none, .fwdRef s⟩ log =
        R tgt log) ∧
    (∀ R env cd aname s log, moduleAttr env cd.module s = Option.none →
      resolveForwardWith R env cd aname s log =
        (.error (resolveErrorMk
          (argErrMsg aname cd.name "class declaration not available in module")), log)) ∧
    resolveF 3 envC5 Container.empty (.cls "T") [] [] [] =
      (.ok (.obj "T" [.obj "ForwardReferent" [] []] []), []) ∧
    resolveF 3 envC5 Container.empty (.cls "TL") [] [] [] =
      (.error (resolveErrorMk
        (argErrMsg "registered" "TL" "class declaration not available in module")), []) := by
  refine ⟨?_, ?_, ?_, rfl, rfl⟩
  · intro R env cd aname s tgt log h
    simp [resolveForwardWith, h]
  · intro R env c cd aname kind s tgt log h1 h2 h
    constructor
    · simp [resolveArgumentWith, resolveEffectiveWith, resolveForwardWith, h1, h2, h]
    · simp [resolveArgumentWith, resolveEffectiveWith, resolveForwardWith, h1, h2, h]
  · intro R env cd aname s log h
    simp [resolveForwardWith, h]

/-- C5 witness: the forward-declaration lookup applied at the concrete class
`T` of module `m` and the module-level class `ForwardReferent`. -/
theorem c5_forward_reference_witness :
    resolveForwardWith (fun _ l => (.ok (.vstr "resolved"), l)) envC5 tC5
      "registered" "ForwardReferent" [] = (.ok (.vstr "resolved"), []) ∧
    resolveForwardWith (fun _ l => (.ok (.vstr "resolved"), l)) envC5 tC5
      "registered" "LocalReferent" [] =
      (.error (resolveErrorMk
        (argErrMsg "registered" "T" "class declaration not available in module")), []) := by
  constructor
  · exact c5_forward_reference.1 _ envC5 tC5 "registered" "ForwardReferent"
      (.cls "ForwardReferent") [] rfl
  · exact c5_forward_reference.2.2.1 _ envC5 tC5 "registered" "LocalReferent" [] rfl

theorem c9_literal_rejection_witness :
    resolveArgumentWith (fun _ l => (.ok .none, l)) ⟨[], []⟩ Container.empty
      ⟨"T", "m", false, []⟩ ⟨"a", .positionalOrKeyword, Option.none,
        .annotated .lit [.other]⟩ [] =
      (.error (resolveErrorMk (argErrMsg "a" "T" "literal")), []) :=
  c9_literal_rejection.2 _ _ Container.empty ⟨"T", "m", false, []⟩ "a" _ [.other] []
    (by decide) (by decide) rfl

/-- C1: a registered class is resolved by invoking its registered
zero-argument factory, whatever extra arguments are supplied — the result is
exactly the factory's result and the invocation is logged; for a
`register_value` factory the result is the captured value with exactly one
invocation appended per call (so `n` resolve calls log `n` invocations — no
caching), and the statement holds for every environment, so the class's
constructor (and metaclass) is never inspected; a custom-metaclass class with
no registration fails with
`ResolveError("Cannot auto-resolve classes with custom meta-class")`. -/
theorem c1_registration_lookup :
    (∀ fuel env c id f args kwargs log, lookupReg c (.cls id) = some f →
      resolveF (fuel + 1) env c (.cls id) args kwargs log =
        runFactoryWith (fun t l => resolveF fuel env c t [] [] l) (.cls id) f log) ∧
    (∀ fuel env c id v args kwargs log, lookupReg c (.cls id) = some (.const v) →
      resolveF (fuel + 1) env c (.cls id) args kwargs log = (.ok v, log ++ [.cls id])) ∧
    (∀ fuel env c id v n log, lookupReg c (.cls id) = some (.const v) →
      resolveIter (fuel + 1) env c (.cls id) n log =
        log ++ List.replicate n (RKey.cls id)) ∧
    (∀ fuel env c id cd args kwargs log, lookupReg c (.cls id) = Option.none →
      lookupClass env id = some cd → cd.customMeta = true →
      resolveF (fuel + 1) env c (.cls id) args kwargs log =
        (.error (resolveErrorMk "Cannot auto-resolve classes with custom meta-class"), log)) := by
  have hconst : ∀ fuel env c id v args kwargs log,
      lookupReg c (.cls id) = some (.const v) →
      resolveF (fuel + 1) env c (.cls id) args kwargs log = (.ok v, log ++ [.cls id]) := by
    intro fuel env c id v args kwargs log h
    simp [resolveF, targetHashable, h, runFactoryWith]
  refine ⟨?_, hconst, ?_, ?_⟩
  · intro fuel env c id f args kwargs log h
    simp [resolveF, targetHashable, h]
  · intro fuel env c id v n log h
    induction n generalizing log with
    | zero => simp [resolveIter]
    | succ n ih =>
      simp only [resolveIter, hconst fuel env c id v [] [] log h]
      rw [ih]
      simp [List.replicate_succ]
  · intro fuel env c id cd args kwargs log hreg hcls hmeta
    simp [resolveF, targetHashable, hreg, hcls, hmeta]

/-- C1 witness: a value-registered class resolves to the registered value with
one logged invocation, two iterated calls log two invocations, and the
unregistered metaclassed `Child` fails. -/
theorem c1_registration_lookup_witness :
    resolveF 1 envMeta contC1 (.cls "T") [] [] [] =
      (.ok (.vstr "t-instance"), [.cls "T"]) ∧
    resolveIter 1 envMeta contC1 (.cls "T") 2 [] = [.cls "T", .cls "T"] ∧
    resolveF 1 envMeta Container.empty (.cls "Child") [] [] [] =
      (.error (resolveErrorMk "Cannot auto-resolve classes with custom meta-class"), []) := by
  refine ⟨?_, ?_, ?_⟩
  · exact c1_registration_lookup.2.1 0 envMeta contC1 "T" (.vstr "t-instance") [] [] [] rfl
  · have h := c1_registration_lookup.2.2.1 0 envMeta contC1 "T" (.vstr "t-instance") 2 [] rfl
    simpa using h
  · exact c1_registration_lookup.2.2.2 0 envMeta Container.empty "Child" _ [] [] [] rfl rfl rfl

/-- C3: resolving `T` with `__init__(self, a, /, b, *args, c,
inner_from_container: Inner, **kwargs)` and the call
`resolve(T, 1, 2, 5, 6, c=3, named="test")` (with `Inner` value-registered)
binds the explicit arguments as a native partial binding would, fills only the
one unbound parameter from the container, and invokes the constructor with
positional arguments `(1, 2, 5, 6)` and keyword arguments
`{c: 3, inner_from_container: <registered Inner>, named: "test"}`; binding
that full call against the signature yields exactly `a=1`, `b=2`,
`args=(5, 6)`, `c=3`, `inner_from_container=<registered Inner>`,
`kwargs={"named": "test"}`. -/
theorem c3_signature_binding :
    resolveF 2 envC3 contC3 (.cls "T")
      [.vint 1, .vint 2, .vint 5, .vint 6]
      [("c", .vint 3), ("named", .vstr "test")] [] =
      (.ok (.obj "T" [.vint 1, .vint 2, .vint 5, .vint 6]
        [("c", .vint 3), ("inner_from_container", innerValC3),
         ("named", .vstr "test")]), [.cls "Inner"]) ∧
    bindPartial tC3.params
      [Value.none, .vint 1, .vint 2, .vint 5, .vint 6]
      [("c", .vint 3), ("inner_from_container", innerValC3), ("named", .vstr "test")] =
      .ok [("self", Value.none), ("a", .vint 1), ("b", .vint 2),
        ("args", .tuple [.vint 5, .vint 6]), ("c", .vint 3),
        ("inner_from_container", innerValC3),
        ("kwargs", .dict [("named", .vstr "test")])] :=
  ⟨rfl, rfl⟩

/-- C8 counterexample: resolving the unregistered custom-metaclass class
`Child` raises a `ResolveError` whose message is the fixed string
`"Cannot auto-resolve classes with custom meta-class"` — the target type name
`Child` does not occur in it, refuting the claim that the message of every
resolution failure identifies the offending parameter and the target type
name. -/
theorem c8_metaclass_message_lacks_names :
    resolveF 1 envMeta Container.empty (.cls "Child") [] [] [] =
      (.error (resolveErrorMk "Cannot auto-resolve classes with custom meta-class"), []) ∧
    ¬ StrContains "Cannot auto-resolve classes with custom meta-class" "Child" :=
  ⟨rfl, by decide⟩

/-- C8 (amended): every listed resolution failure raises `ResolveError` (a
`TypeError` subclass carrying exactly its message arguments); the
per-parameter failures (no type annotation, literal constraint, unavailable
forward reference) carry a message naming the offending parameter and the
target type, while the target-level failures (unusable key / non-class target,
custom-metaclass target) carry fixed messages that name neither. -/
theorem c8_error_kind_and_messages :
    (∀ fuel env c v args kwargs log,
      resolveF (fuel + 1) env c (.value v) args kwargs log =
        (.error (resolveErrorMk "Can only resolve classes"), log)) ∧
    (∀ fuel env c id cd args kwargs log, lookupReg c (.cls id) = Option.none →
      lookupClass env id = some cd → cd.customMeta = true →
      resolveF (fuel + 1) env c (.cls id) args kwargs log =
        (.error (resolveErrorMk "Cannot auto-resolve classes with custom meta-class"), log)) ∧
    (∀ aname tname tail, StrContains (argErrMsg aname tname tail) aname ∧
      StrContains (argErrMsg aname tname tail) tname) ∧
    (∀ R env c cd aname kind log,
      kind ≠ PKind.varPositional → kind ≠ PKind.varKeyword →
      resolveArgumentWith R env c cd ⟨aname, kind, Option.none, .empty⟩ log =
        (.error (resolveErrorMk (argErrMsg aname cd.name "no type annotation")), log) ∧
      resolveArgumentWith R env c cd ⟨aname, kind, Option.none, .lit⟩ log =
        (.error (resolveErrorMk (argErrMsg aname cd.name "literal")), log)) ∧
    (∀ R env cd aname s log, moduleAttr env cd.module s = Option.none →
      resolveForwardWith R env cd aname s log =
        (.error (resolveErrorMk
          (argErrMsg aname cd.name "class declaration not available in module")), log)) ∧
    (∀ msg, (resolveErrorMk msg).cls = ExcClass.resolveError ∧
      (resolveErrorMk msg).args = [msg] ∧
      catches .typeError (resolveErrorMk msg) = true) := by
  refine ⟨?_, ?_, ?_, ?_, ?_, fun msg => ⟨rfl, rfl, rfl⟩⟩
  · intro fuel env c v args kwargs log
    rcases Bool.eq_false_or_eq_true (targetHashable (.value v)) with h | h <;>
      simp [resolveF, h]
  · intro fuel env c id cd args kwargs log hreg hcls hmeta
    simp [resolveF, targetHashable, hreg, hcls, hmeta]
  · intro aname tname tail
    constructor
    · refine ⟨"Cannot resolve argument ".data,
        (" for " ++ tname ++ ": " ++ tail).data, ?_⟩
      simp [argErrMsg, String.data_append, List.append_assoc]
    · refine ⟨("Cannot resolve argument " ++ aname ++ " for ").data,
        (": " ++ tail).data, ?_⟩
      simp [argErrMsg, String.data_append, List.append_assoc]
  · intro R env c cd aname kind log h1 h2
    constructor
    · simp [resolveArgumentWith, h1, h2]
    · simp [resolveArgumentWith, resolveEffectiveWith, h1, h2]
  · intro R env cd aname s log h
    simp [resolveForwardWith, h]

/-- C8 witness: non-class targets (a string, an unhashable list) fail with the
fixed message, and the per-parameter message for the concrete parameter `a` of
class `T` contains both names. -/
theorem c8_error_kind_and_messages_witness :
    resolveF 1 ⟨[], []⟩ Container.empty (.value (.vstr "a-string")) [] [] [] =
      (.error (resolveErrorMk "Can only resolve classes"), []) ∧
    resolveF 1 ⟨[], []⟩ Container.empty (.value (.list [])) [] [] [] =
      (.error (resolveErrorMk "Can only resolve classes"), []) ∧
    StrContains (argErrMsg "a" "T" "no type annotation") "a" ∧
    StrContains (argErrMsg "a" "T" "no type annotation") "T" :=
  ⟨c8_error_kind_and_messages.1 0 _ _ _ [] [] [],
   c8_error_kind_and_messages.1 0 _ _ _ [] [] [],
   (c8_error_kind_and_messages.2.2.1 "a" "T" "no type annotation").1,
   (c8_error_kind_and_messages.2.2.1 "a" "T" "no type annotation").2⟩

end Yellowdi
